import Mathlib

/-!
Verification of the motion-reel gallery component
(`src/components/motion-reel-section.tsx` and the two controller variants in
`src/unnamed/part_000`).

The embedding models JavaScript numbers as exact rationals extended with NaN
and the two infinities, the media element as a record of its transport flags,
and each React card as a record of its `useState` fields.  Commands
(`togglePlay`, `toggleMute`, seek handlers) and native media events are
translated as functions on those records, following the source line by line.
-/

set_option autoImplicit false

universe u

/-- A JavaScript `number`: NaN, a signed Infinity, or an exact finite value.
Finite values are modelled as rationals (the sources only perform field
arithmetic, comparison, `Math.floor`, `%`, `Math.min/max`, so exact rationals
cover every value the embedded code can produce; `-0` is not distinguished
from `0`, a distinction none of the embedded code observes). -/
inductive JSNum where
  | nan : JSNum
  | inf (pos : Bool) : JSNum
  | num (q : ℚ) : JSNum
deriving DecidableEq

/-- JavaScript truthiness of a number: `NaN` and `0` are falsy, everything
else (including the infinities) is truthy. -/
def truthy : JSNum → Bool
  | JSNum.nan => false
  | JSNum.inf _ => true
  | JSNum.num q => decide (q ≠ 0)

/-- JavaScript `a || b` restricted to numbers: returns `a` if truthy, else `b`. -/
def jsOr (a b : JSNum) : JSNum :=
  if truthy a then a else b

/-- Truncation toward zero of a rational, as used by the JavaScript `%`
operator (`a % b = a - b * trunc(a / b)`). -/
def ratTrunc (q : ℚ) : ℤ :=
  if 0 ≤ q then ⌊q⌋ else ⌈q⌉

/-- JavaScript division on numbers (IEEE semantics over our carrier):
NaN propagates; `finite / 0` is an infinity (NaN for `0 / 0`);
`finite / Infinity` is `0`; `Infinity / Infinity` is NaN. -/
def jsDiv : JSNum → JSNum → JSNum
  | JSNum.nan, _ => JSNum.nan
  | _, JSNum.nan => JSNum.nan
  | JSNum.inf _, JSNum.inf _ => JSNum.nan
  | JSNum.inf s, JSNum.num b =>
      if b = 0 then JSNum.inf s else JSNum.inf (s = decide (0 < b))
  | JSNum.num _, JSNum.inf _ => JSNum.num 0
  | JSNum.num a, JSNum.num b =>
      if b = 0 then
        (if a = 0 then JSNum.nan else JSNum.inf (decide (0 < a)))
      else JSNum.num (a / b)

/-- JavaScript multiplication: NaN propagates; `0 * Infinity` is NaN. -/
def jsMul : JSNum → JSNum → JSNum
  | JSNum.nan, _ => JSNum.nan
  | _, JSNum.nan => JSNum.nan
  | JSNum.inf s, JSNum.inf t => JSNum.inf (s = t)
  | JSNum.inf s, JSNum.num b =>
      if b = 0 then JSNum.nan else JSNum.inf (s = decide (0 < b))
  | JSNum.num a, JSNum.inf t =>
      if a = 0 then JSNum.nan else JSNum.inf (t = decide (0 < a))
  | JSNum.num a, JSNum.num b => JSNum.num (a * b)

/-- JavaScript subtraction: NaN propagates; `Infinity - Infinity` is NaN. -/
def jsSub : JSNum → JSNum → JSNum
  | JSNum.nan, _ => JSNum.nan
  | _, JSNum.nan => JSNum.nan
  | JSNum.inf s, JSNum.inf t => if s = t then JSNum.nan else JSNum.inf s
  | JSNum.inf s, JSNum.num _ => JSNum.inf s
  | JSNum.num _, JSNum.inf t => JSNum.inf (!t)
  | JSNum.num a, JSNum.num b => JSNum.num (a - b)

/-- JavaScript `Math.floor`: NaN and the infinities are returned unchanged. -/
def jsFloor : JSNum → JSNum
  | JSNum.nan => JSNum.nan
  | JSNum.inf s => JSNum.inf s
  | JSNum.num q => JSNum.num (⌊q⌋ : ℤ)

/-- JavaScript remainder `a % b`: NaN if either operand is NaN, the dividend
is an infinity, or the divisor is `0`; `a % Infinity = a`; otherwise
`a - b * trunc(a / b)` (sign follows the dividend). -/
def jsMod : JSNum → JSNum → JSNum
  | JSNum.nan, _ => JSNum.nan
  | _, JSNum.nan => JSNum.nan
  | JSNum.inf _, _ => JSNum.nan
  | JSNum.num a, JSNum.inf _ => JSNum.num a
  | JSNum.num a, JSNum.num b =>
      if b = 0 then JSNum.nan else JSNum.num (a - b * (ratTrunc (a / b) : ℚ))

/-- JavaScript `<` on numbers: any comparison with NaN is false. -/
def jsLt : JSNum → JSNum → Bool
  | JSNum.nan, _ => false
  | _, JSNum.nan => false
  | JSNum.inf s, JSNum.inf t => !s && t
  | JSNum.inf s, JSNum.num _ => !s
  | JSNum.num _, JSNum.inf t => t
  | JSNum.num a, JSNum.num b => decide (a < b)

/-- JavaScript `Math.min` on two numbers: NaN if either operand is NaN. -/
def jsMin : JSNum → JSNum → JSNum
  | JSNum.nan, _ => JSNum.nan
  | _, JSNum.nan => JSNum.nan
  | JSNum.inf s, JSNum.inf t => JSNum.inf (s && t)
  | JSNum.inf s, JSNum.num b => if s then JSNum.num b else JSNum.inf s
  | JSNum.num a, JSNum.inf t => if t then JSNum.num a else JSNum.inf t
  | JSNum.num a, JSNum.num b => JSNum.num (min a b)

/-- JavaScript `Math.max` on two numbers: NaN if either operand is NaN. -/
def jsMax : JSNum → JSNum → JSNum
  | JSNum.nan, _ => JSNum.nan
  | _, JSNum.nan => JSNum.nan
  | JSNum.inf s, JSNum.inf t => JSNum.inf (s || t)
  | JSNum.inf s, JSNum.num b => if s then JSNum.inf s else JSNum.num b
  | JSNum.num a, JSNum.inf t => if t then JSNum.inf t else JSNum.num a
  | JSNum.num a, JSNum.num b => JSNum.num (max a b)

/-- Rendering a number into a template literal.  The conversion is exact for
NaN, the infinities and integral finite values — the only numbers the
embedded code ever stringifies (`formatTime` floors before interpolating). -/
def jsNumStr : JSNum → String
  | JSNum.nan => "NaN"
  | JSNum.inf s => if s then "Infinity" else "-Infinity"
  | JSNum.num q => if q.den = 1 then toString q.num else toString q

/-! ### Layout chunking

`motion-reel-section.tsx` imports `chunkByPattern` from `@/lib/chunk`, a
module that is not part of the provided sources. -/

/-- Row size of row `i` of the repeating `[3, 2]` pattern:
`pattern[i % pattern.length]`. -/
def patternAt (i : ℕ) : ℕ :=
  if i % 2 = 0 then 3 else 2

/-- Modelled from the spec: the body of `chunkByPattern` (module `@/lib/chunk`)
is missing from the sources; per the spec it consumes items greedily in
original order, row `i` taking `pattern[i % pattern.length]` items (pattern
`[3, 2]`), or fewer for the final row if input is exhausted.  The `fuel`
argument (instantiated with the input length by `chunkByPattern`) only bounds
the recursion — every row consumes at least one item, so it never runs out. -/
def chunkRowsAux {α : Type u} : ℕ → ℕ → List α → List (List α)
  | 0, _, _ => []
  | _ + 1, _, [] => []
  | fuel + 1, i, x :: xs =>
      (x :: xs).take (patternAt i) :: chunkRowsAux fuel (i + 1) ((x :: xs).drop (patternAt i))

/-- Modelled from the spec: `chunk(items) -> rows`, greedy over the repeating
`[3, 2]` pattern starting at row index 0. -/
def chunkByPattern {α : Type u} (items : List α) : List (List α) :=
  chunkRowsAux items.length 0 items

/-- The row sizes `chunkByPattern` produces on an input of length `n`,
computed on lengths alone (same greedy recursion as `chunkRowsAux`). -/
def rowSizesAux : ℕ → ℕ → ℕ → List ℕ
  | 0, _, _ => []
  | _ + 1, _, 0 => []
  | fuel + 1, i, n + 1 =>
      min (patternAt i) (n + 1) :: rowSizesAux fuel (i + 1) (n + 1 - patternAt i)

/-! ### Per-card playback controller, `src/unnamed/part_000` (first variant)

The card owns two optional media elements (`desktopVideoRef`,
`mobileVideoRef`); every handler operates on
`desktopVideoRef.current || mobileVideoRef.current`. -/

/-- The transport state of one native media element. -/
structure VideoElem where
  paused : Bool
  muted : Bool
  currentTime : JSNum
  duration : JSNum
deriving DecidableEq

/-- The imperative command a handler issues on the element, if any.
`play h` records whether a rejection handler (`.catch(console.error)`) was
attached to the promise returned by `play()`. -/
inductive MediaCmd where
  | none : MediaCmd
  | play (rejectionHandled : Bool) : MediaCmd
  | pause : MediaCmd
deriving DecidableEq

/-- The `useState` fields of one card of the first `part_000` variant,
together with its two element refs. -/
structure CardState where
  desktopVideo : Option VideoElem
  mobileVideo : Option VideoElem
  isPlaying : Bool
  progress : JSNum
  duration : JSNum
  currentTime : JSNum
  isMuted : Bool
  isLoading : Bool
  hasError : Bool
deriving DecidableEq

/-- `desktopVideoRef.current || mobileVideoRef.current`. -/
def currentVideo (s : CardState) : Option VideoElem :=
  match s.desktopVideo with
  | some v => some v
  | none => s.mobileVideo

/-- Writing a mutated element back through whichever ref `currentVideo`
selected. -/
def setVideo (s : CardState) (v : VideoElem) : CardState :=
  match s.desktopVideo, s.mobileVideo with
  | some _, _ => { s with desktopVideo := some v }
  | none, some _ => { s with mobileVideo := some v }
  | none, none => s

/-- `togglePlay` (part_000, lines 72-77): no element → return; paused →
`video.play().catch(console.error)`; else `video.pause()`.  No React state is
touched. -/
def togglePlay (s : CardState) : CardState × MediaCmd :=
  match currentVideo s with
  | none => (s, MediaCmd.none)
  | some v => if v.paused then (s, MediaCmd.play true) else (s, MediaCmd.pause)

/-- `toggleMute` (part_000, lines 79-84): flips the element's `muted` flag and
mirrors the read-back value into `isMuted`. -/
def toggleMute (s : CardState) : CardState :=
  match currentVideo s with
  | none => s
  | some v =>
      { setVideo s { v with muted := !v.muted } with isMuted := !v.muted }

/-- The fraction `handleProgressClick` derives from a pointer position:
`Math.max(0, Math.min(1, (e.clientX - rect.left) / rect.width))`. -/
def clickPos (clientX rectLeft rectWidth : JSNum) : JSNum :=
  jsMax (JSNum.num 0) (jsMin (JSNum.num 1) (jsDiv (jsSub clientX rectLeft) rectWidth))

/-- `handleProgressClick` (part_000, lines 86-92 and 320-325): if the progress
bar ref or the element is missing, return; otherwise assign
`video.currentTime = pos * video.duration`.  No React state is touched. -/
def handleProgressClick (clientX rectLeft rectWidth : JSNum)
    (progressRefAttached : Bool) (s : CardState) : CardState :=
  match progressRefAttached, currentVideo s with
  | true, some v =>
      setVideo s { v with currentTime := jsMul (clickPos clientX rectLeft rectWidth) v.duration }
  | _, _ => s

/-- The native media events the effect registers handlers for
(part_000, lines 48-70), plus `canplay` registered inline on the element. -/
inductive MediaEvent where
  | play : MediaEvent
  | pause : MediaEvent
  | timeupdate : MediaEvent
  | loadedmetadata : MediaEvent
  | error : MediaEvent
  | canplay : MediaEvent
deriving DecidableEq

/-- `(video.currentTime / (video.duration || 1)) * 100`, the percentage
`handleTimeUpdate` stores (part_000, lines 41-46). -/
def progressPercent (currentTime duration : JSNum) : JSNum :=
  jsMul (jsDiv currentTime (jsOr duration (JSNum.num 1))) (JSNum.num 100)

/-- The registered event handlers of part_000: `handlePlay`, `handlePause`,
`handleTimeUpdate`, `handleLoadedMetadata`, `handleError`, and the inline
`onCanPlay`. -/
def handleEvent (e : MediaEvent) (s : CardState) : CardState :=
  match e with
  | MediaEvent.play => { s with isPlaying := true }
  | MediaEvent.pause => { s with isPlaying := false }
  | MediaEvent.timeupdate =>
      match currentVideo s with
      | none => s
      | some v =>
          { s with currentTime := v.currentTime
                   progress := progressPercent v.currentTime v.duration }
  | MediaEvent.loadedmetadata =>
      match currentVideo s with
      | none => s
      | some v => { s with duration := v.duration }
  | MediaEvent.error => { s with hasError := true }
  | MediaEvent.canplay => { s with isLoading := false }

/-- The re-render that follows a state change: JSX
`hasError ? <error affordance/> : <video ref={desktopVideoRef} .../>`
(part_000, lines 116-132) unmounts the desktop element once `hasError` holds,
while the mobile element (lines 177-194) is rendered unconditionally. -/
def renderSync (s : CardState) : CardState :=
  if s.hasError then { s with desktopVideo := none } else s

/-- The gallery renders one card per item, each owning its state instance;
an update produced by one card's handler touches only that card's entry. -/
def updateCard : List CardState → ℕ → (CardState → CardState) → List CardState
  | [], _, _ => []
  | c :: cs, 0, f => f c :: cs
  | c :: cs, n + 1, f => c :: updateCard cs n f

/-- `formatTime` (part_000, lines 94-98 and 327-331):
`minutes = Math.floor(time / 60)`, `seconds = Math.floor(time % 60)`,
rendered as `minutes + ":" + (seconds < 10 ? "0" : "") + seconds`. -/
def formatTime (time : JSNum) : String :=
  let minutes := jsFloor (jsDiv time (JSNum.num 60))
  let seconds := jsFloor (jsMod time (JSNum.num 60))
  jsNumStr minutes ++ ":" ++ (if jsLt seconds (JSNum.num 10) then "0" else "") ++ jsNumStr seconds

/-! ### Per-card state of `motion-reel-section.tsx` -/

/-- The `useState` fields of a `Card` of `motion-reel-section.tsx` and its
single element ref. -/
structure TCardState where
  video : Option VideoElem
  playing : Bool
  muted : Bool
  progress : JSNum
  showDescription : Bool
deriving DecidableEq

/-- `togglePlay` (motion-reel-section.tsx, lines 32-35):
`videoRef.current.paused ? videoRef.current.play() : videoRef.current.pause()`
— no `.catch` is attached to the play promise, and no React state is
touched. -/
def togglePlayT (s : TCardState) : TCardState × MediaCmd :=
  match s.video with
  | none => (s, MediaCmd.none)
  | some v => if v.paused then (s, MediaCmd.play false) else (s, MediaCmd.pause)

/-- `toggleMute` (motion-reel-section.tsx, lines 37-41). -/
def toggleMuteT (s : TCardState) : TCardState :=
  match s.video with
  | none => s
  | some v =>
      { s with video := some { v with muted := !v.muted }, muted := !v.muted }

/-- `current / (videoRef.current.duration || 1)`, the fraction
`handleProgress` stores (motion-reel-section.tsx, lines 43-48). -/
def progressValue (currentTime duration : JSNum) : JSNum :=
  jsDiv currentTime (jsOr duration (JSNum.num 1))

/-- `handleProgress` (motion-reel-section.tsx, lines 43-48). -/
def handleProgressT (s : TCardState) : TCardState :=
  match s.video with
  | none => s
  | some v => { s with progress := progressValue v.currentTime v.duration }

/-- `handleSeek` (motion-reel-section.tsx, lines 50-55): with `value` the
parsed range-input value, assigns
`videoRef.current.currentTime = value * videoRef.current.duration` and then
`setProgress(value)`. -/
def handleSeekT (value : JSNum) (s : TCardState) : TCardState :=
  match s.video with
  | none => s
  | some v =>
      { s with video := some { v with currentTime := jsMul value v.duration }
               progress := value }

/-- The events the tsx effect registers (motion-reel-section.tsx, lines 57-74). -/
inductive TEvent where
  | play : TEvent
  | pause : TEvent
  | timeupdate : TEvent
deriving DecidableEq

/-- The registered tsx event handlers: `onPlay`, `onPause`, `onTimeUpdate`. -/
def handleEventT (e : TEvent) (s : TCardState) : TCardState :=
  match e with
  | TEvent.play => { s with playing := true }
  | TEvent.pause => { s with playing := false }
  | TEvent.timeupdate => handleProgressT s

/-! ### Input normalization, `part_000` second variant lines 236-245 -/

/-- One reel item (second variant: `{ title, reel }`). -/
structure Reel where
  title : String
  reel : String
deriving DecidableEq

/-- The external data shape: `Reel | Reel[] | null`. -/
inductive ReelData where
  | null : ReelData
  | single (r : Reel) : ReelData
  | arr (rs : List Reel) : ReelData
deriving DecidableEq

/-- `data ? (Array.isArray(data) ? data : [data]) : []`. -/
def normalizeData : ReelData → List Reel
  | ReelData.null => []
  | ReelData.single r => [r]
  | ReelData.arr rs => rs

/-- What the section renders: either the explicit empty-state message or one
card per normalized item, in order (`videos.map`). -/
inductive SectionView where
  | emptyMessage : SectionView
  | cards (items : List Reel) : SectionView
deriving DecidableEq

/-- `if (videos.length === 0) return <p>No videos available</p>;` followed by
`videos.map(... <MotionReelCard reel={reel}/>)`. -/
def renderSection (d : ReelData) : SectionView :=
  let videos := normalizeData d
  if videos.length = 0 then SectionView.emptyMessage else SectionView.cards videos

/-! ### Sample states used by witnesses and counterexamples -/

/-- A paused desktop element with known duration. -/
def vElem : VideoElem :=
  { paused := true, muted := false, currentTime := JSNum.num 3, duration := JSNum.num 10 }

/-- A mobile element, initially unmuted. -/
def vMob : VideoElem :=
  { paused := true, muted := false, currentTime := JSNum.num 0, duration := JSNum.num 10 }

/-- An element whose raw readings are `currentTime = 5`, `duration = 0`. -/
def vRaw : VideoElem :=
  { paused := false, muted := false, currentTime := JSNum.num 5, duration := JSNum.num 0 }

/-- An element whose duration is still unknown (NaN). -/
def vNaN : VideoElem :=
  { paused := true, muted := false, currentTime := JSNum.num 3, duration := JSNum.nan }

/-- A part_000 card with both elements attached and no error. -/
def sErr : CardState :=
  { desktopVideo := some vElem, mobileVideo := some vMob, isPlaying := false,
    progress := JSNum.num 0, duration := JSNum.num 0, currentTime := JSNum.num 0,
    isMuted := false, isLoading := false, hasError := false }

/-- A part_000 card with only the desktop element attached. -/
def sClick : CardState :=
  { desktopVideo := some vElem, mobileVideo := none, isPlaying := false,
    progress := JSNum.num 0, duration := JSNum.num 10, currentTime := JSNum.num 0,
    isMuted := false, isLoading := false, hasError := false }

/-- A part_000 card with no element attached at all. -/
def sEmpty : CardState :=
  { desktopVideo := none, mobileVideo := none, isPlaying := false,
    progress := JSNum.num 0, duration := JSNum.num 0, currentTime := JSNum.num 0,
    isMuted := false, isLoading := true, hasError := false }

/-- A tsx card holding a paused element of duration 10. -/
def tSeek : TCardState :=
  { video := some vElem, playing := false, muted := true,
    progress := JSNum.num (3 / 10), showDescription := false }

/-- A tsx card whose element still has unknown (NaN) duration. -/
def tNaN : TCardState :=
  { video := some vNaN, playing := false, muted := true,
    progress := JSNum.num 0, showDescription := false }

/-- A tsx card whose element reports `currentTime = 5`, `duration = 0`. -/
def tRaw : TCardState :=
  { video := some vRaw, playing := true, muted := false,
    progress := JSNum.num 0, showDescription := false }

/-- A tsx card with no element attached. -/
def tEmpty : TCardState :=
  { video := none, playing := false, muted := true,
    progress := JSNum.num 0, showDescription := false }

/-- Sample reel items for the normalization witness. -/
def rA : Reel := { title := "intro", reel := "intro.mp4" }

/-- A second sample reel item. -/
def rB : Reel := { title := "teaser", reel := "teaser.mp4" }

/-! ### Lemmas about the chunking algorithm -/

theorem patternAt_pos (i : ℕ) : 0 < patternAt i := by
  unfold patternAt
  split <;> omega

theorem chunkRowsAux_join {α : Type u} :
    ∀ (fuel i : ℕ) (xs : List α), xs.length ≤ fuel →
      (chunkRowsAux fuel i xs).flatten = xs := by
  intro fuel
  induction fuel with
  | zero =>
    intro i xs h
    have hx : xs = [] := List.length_eq_zero.mp (Nat.le_zero.mp h)
    subst hx
    rfl
  | succ n ih =>
    intro i xs h
    cases xs with
    | nil => rfl
    | cons x l =>
      have hp := patternAt_pos i
      have hd : ((x :: l).drop (patternAt i)).length ≤ n := by
        rw [List.length_drop]
        simp only [List.length_cons] at h ⊢
        omega
      simp only [chunkRowsAux, List.flatten_cons, ih (i + 1) _ hd]
      exact List.take_append_drop _ _

theorem chunkRowsAux_sizes {α : Type u} :
    ∀ (fuel i : ℕ) (xs : List α), xs.length ≤ fuel →
      (chunkRowsAux fuel i xs).map List.length = rowSizesAux fuel i xs.length := by
  intro fuel
  induction fuel with
  | zero =>
    intro i xs h
    have hx : xs = [] := List.length_eq_zero.mp (Nat.le_zero.mp h)
    subst hx
    rfl
  | succ n ih =>
    intro i xs h
    cases xs with
    | nil => rfl
    | cons x l =>
      have hp := patternAt_pos i
      have hd : ((x :: l).drop (patternAt i)).length ≤ n := by
        rw [List.length_drop]
        simp only [List.length_cons] at h ⊢
        omega
      simp only [chunkRowsAux, List.map_cons, List.length_take, List.length_cons,
        rowSizesAux, ih (i + 1) _ hd, List.length_drop]

/-- C1: `chunkByPattern` partitions any finite list greedily per the repeating
pattern `[3, 2]`: the empty list yields no rows, a 5-item list yields rows of
sizes `[3, 2]`, a 7-item list rows of sizes `[3, 2, 2]`, and for every input
the concatenation of the rows is exactly the input (order preserved, no item
dropped or duplicated); the function is total. -/
theorem chunkByPattern_correct :
    (chunkByPattern ([] : List ℕ) = []) ∧
    (∀ xs : List ℕ, xs.length = 5 → (chunkByPattern xs).map List.length = [3, 2]) ∧
    (∀ xs : List ℕ, xs.length = 7 → (chunkByPattern xs).map List.length = [3, 2, 2]) ∧
    (∀ xs : List ℕ, (chunkByPattern xs).flatten = xs) := by
  refine ⟨rfl, ?_, ?_, ?_⟩
  · intro xs h
    rw [chunkByPattern, chunkRowsAux_sizes xs.length 0 xs le_rfl, h]
    decide
  · intro xs h
    rw [chunkByPattern, chunkRowsAux_sizes xs.length 0 xs le_rfl, h]
    decide
  · intro xs
    exact chunkRowsAux_join xs.length 0 xs le_rfl

/-- Witness for C1 at concrete inputs of lengths 5 and 7. -/
theorem chunkByPattern_correct_witness :
    (chunkByPattern [0, 1, 2, 3, 4]).map List.length = [3, 2] ∧
    (chunkByPattern [0, 1, 2, 3, 4, 5, 6]).map List.length = [3, 2, 2] :=
  ⟨chunkByPattern_correct.2.1 [0, 1, 2, 3, 4] rfl,
   chunkByPattern_correct.2.2.1 [0, 1, 2, 3, 4, 5, 6] rfl⟩

/-! ### Progress fraction -/

/-- C2 counterexample: a media element reporting `currentTime = 5` with
`duration = 0` makes `handleProgress` store the fraction `5 / (0 || 1) = 5`,
which lies outside `[0, 1]` — the code never clamps the quotient. -/
theorem progress_fraction_counterexample :
    (handleProgressT tRaw).progress = JSNum.num 5 ∧ ¬((5 : ℚ) ≤ 1) := by
  constructor
  · norm_num [handleProgressT, tRaw, vRaw, progressValue, jsOr, truthy, jsDiv]
  · norm_num

/-- C2 (amended): for every finite raw `currentTime` the derived progress
value is a finite number — never NaN or Infinity, because a falsy (0 or NaN)
duration is replaced by 1 and an infinite duration yields quotient 0 — but it
is not clamped: it lies within `[0, 1]` only under the additional guarantee
`0 ≤ currentTime ≤ duration`. -/
theorem progress_fraction_amended :
    (∀ (c : ℚ) (d : JSNum), ∃ q : ℚ, progressValue (JSNum.num c) d = JSNum.num q) ∧
    (∀ c dq : ℚ, 0 ≤ c → c ≤ dq →
      ∃ q : ℚ, progressValue (JSNum.num c) (JSNum.num dq) = JSNum.num q ∧ 0 ≤ q ∧ q ≤ 1) := by
  constructor
  · intro c d
    cases d with
    | nan => exact ⟨c / 1, by simp [progressValue, jsOr, truthy, jsDiv]⟩
    | inf s => exact ⟨0, by simp [progressValue, jsOr, truthy, jsDiv]⟩
    | num dq =>
      by_cases hdq : dq = 0
      · subst hdq
        exact ⟨c / 1, by simp [progressValue, jsOr, truthy, jsDiv]⟩
      · exact ⟨c / dq, by simp [progressValue, jsOr, truthy, jsDiv, hdq]⟩
  · intro c dq h0 hle
    by_cases hdq : dq = 0
    · subst hdq
      have hc : c = 0 := le_antisymm hle h0
      subst hc
      exact ⟨0, by simp [progressValue, jsOr, truthy, jsDiv], le_refl 0, zero_le_one⟩
    · have hpos : 0 < dq := lt_of_le_of_ne (le_trans h0 hle) (Ne.symm hdq)
      refine ⟨c / dq, by simp [progressValue, jsOr, truthy, jsDiv, hdq], ?_, ?_⟩
      · exact div_nonneg h0 (le_of_lt hpos)
      · exact (div_le_one hpos).mpr hle

/-- Witness for the amended C2 at `currentTime = 3`, `duration = 4`. -/
theorem progress_fraction_amended_witness :
    ∃ q : ℚ, progressValue (JSNum.num 3) (JSNum.num 4) = JSNum.num q ∧ 0 ≤ q ∧ q ≤ 1 :=
  progress_fraction_amended.2 3 4 (by norm_num) (by norm_num)

/-! ### Time formatting -/

theorem ratTrunc_natCast_div (n : ℕ) : ratTrunc ((n : ℚ) / 60) = ((n / 60 : ℕ) : ℤ) := by
  unfold ratTrunc
  rw [if_pos (by positivity)]
  exact_mod_cast Rat.floor_natCast_div_natCast n 60

theorem jsMod_natCast_60 (n : ℕ) :
    jsMod (JSNum.num n) (JSNum.num 60) = JSNum.num ((n % 60 : ℕ) : ℚ) := by
  simp only [jsMod]
  rw [if_neg (by norm_num : ¬((60 : ℚ) = 0)), ratTrunc_natCast_div n]
  congr 1
  have hq : (60 : ℚ) * ((n / 60 : ℕ) : ℚ) + ((n % 60 : ℕ) : ℚ) = (n : ℚ) := by
    exact_mod_cast congrArg (fun k : ℕ => (k : ℚ)) (Nat.div_add_mod n 60)
  rw [Int.cast_natCast]
  linarith

theorem jsNumStr_intCast (m : ℤ) : jsNumStr (JSNum.num (m : ℚ)) = toString m := by
  simp [jsNumStr, Rat.den_intCast, Rat.num_intCast]

theorem toString_int_ofNat (k : ℕ) : toString ((k : ℤ)) = toString k := rfl

theorem formatTime_nat (n : ℕ) :
    formatTime (JSNum.num n) =
      toString (n / 60) ++ ":" ++ (if n % 60 < 10 then "0" else "") ++ toString (n % 60) := by
  have h1 : jsDiv (JSNum.num n) (JSNum.num 60) = JSNum.num ((n : ℚ) / 60) := by
    norm_num [jsDiv]
  have hfl : (⌊(n : ℚ) / 60⌋ : ℤ) = ((n / 60 : ℕ) : ℤ) := by
    exact_mod_cast Rat.floor_natCast_div_natCast n 60
  have hb : jsLt (JSNum.num (((n % 60 : ℕ) : ℤ) : ℚ)) (JSNum.num 10) = decide (n % 60 < 10) := by
    simp only [jsLt, decide_eq_decide]
    constructor
    · intro h
      exact_mod_cast h
    · intro h
      exact_mod_cast h
  show jsNumStr (jsFloor (jsDiv (JSNum.num n) (JSNum.num 60))) ++ ":" ++
      (if jsLt (jsFloor (jsMod (JSNum.num n) (JSNum.num 60))) (JSNum.num 10) then "0" else "") ++
      jsNumStr (jsFloor (jsMod (JSNum.num n) (JSNum.num 60))) = _
  rw [h1, jsMod_natCast_60 n]
  simp only [jsFloor, hfl, Int.floor_natCast]
  rw [jsNumStr_intCast, jsNumStr_intCast, toString_int_ofNat, toString_int_ofNat, hb]
  by_cases h : n % 60 < 10
  · simp [h]
  · simp [h]

/-- C3 (amended): `formatTime` renders minutes unpadded and seconds
zero-padded to two digits for every whole-second input — in particular
`formatTime 0 = "0:00"` and `formatTime 65 = "1:05"` — but a NaN input is not
replaced by a placeholder: the code computes `Math.floor` on NaN and renders
the string `"NaN:NaN"`. -/
theorem formatTime_spec :
    (∀ n : ℕ, formatTime (JSNum.num n) =
      toString (n / 60) ++ ":" ++ (if n % 60 < 10 then "0" else "") ++ toString (n % 60)) ∧
    formatTime (JSNum.num 0) = "0:00" ∧
    formatTime (JSNum.num 65) = "1:05" ∧
    formatTime JSNum.nan = "NaN:NaN" := by
  refine ⟨formatTime_nat, ?_, ?_, rfl⟩
  · have h := formatTime_nat 0
    simp only [Nat.cast_zero] at h
    rw [h]
    rfl
  · have h := formatTime_nat 65
    simp only [Nat.cast_ofNat] at h
    rw [h]
    rfl

/-- C3 counterexample: on NaN input (the raw `duration` before metadata
loads), `formatTime` produces exactly the string `"NaN:NaN"` that the claim
says it never produces. -/
theorem formatTime_nan_counterexample : formatTime JSNum.nan = "NaN:NaN" := rfl

/-! ### Helper lemmas about the card model -/

theorem setVideo_isPlaying (s : CardState) (v : VideoElem) :
    (setVideo s v).isPlaying = s.isPlaying := by
  cases hd : s.desktopVideo <;> cases hm : s.mobileVideo <;> simp [setVideo, hd, hm]

theorem setVideo_duration (s : CardState) (v : VideoElem) :
    (setVideo s v).duration = s.duration := by
  cases hd : s.desktopVideo <;> cases hm : s.mobileVideo <;> simp [setVideo, hd, hm]

theorem setVideo_currentTime (s : CardState) (v : VideoElem) :
    (setVideo s v).currentTime = s.currentTime := by
  cases hd : s.desktopVideo <;> cases hm : s.mobileVideo <;> simp [setVideo, hd, hm]

theorem setVideo_progress (s : CardState) (v : VideoElem) :
    (setVideo s v).progress = s.progress := by
  cases hd : s.desktopVideo <;> cases hm : s.mobileVideo <;> simp [setVideo, hd, hm]

theorem updateCard_get_ne :
    ∀ (cards : List CardState) (i j : ℕ) (f : CardState → CardState), j ≠ i →
      (updateCard cards i f).get? j = cards.get? j := by
  intro cards
  induction cards with
  | nil =>
    intro i j f h
    cases i <;> rfl
  | cons c cs ih =>
    intro i j f h
    cases i with
    | zero =>
      cases j with
      | zero => exact absurd rfl h
      | succ j => rfl
    | succ i =>
      cases j with
      | zero => rfl
      | succ j => exact ih i j f (fun hh => h (congrArg Nat.succ hh))

/-! ### Seeking -/

/-- C4 counterexample: `handleSeek` applies the raw input value without
clamping — value 2 against duration 10 drives the element's current time to
20 and the stored progress to 2 — and an unknown (NaN) duration is not a
no-op: the element's current time, previously 3, is overwritten with NaN. -/
theorem seek_counterexample :
    (handleSeekT (JSNum.num 2) tSeek).video =
      some { paused := true, muted := false, currentTime := JSNum.num 20,
             duration := JSNum.num 10 } ∧
    (handleSeekT (JSNum.num 2) tSeek).progress = JSNum.num 2 ∧
    (handleSeekT (JSNum.num (1 / 2)) tNaN).video =
      some { paused := true, muted := false, currentTime := JSNum.nan,
             duration := JSNum.nan } := by
  refine ⟨?_, ?_, ?_⟩ <;> norm_num [handleSeekT, tSeek, tNaN, vElem, vNaN, jsMul]

/-- C4 (amended): `handleProgressClick` clamps its pointer-derived fraction
into `[0, 1]` before use, but `handleSeek` applies the raw parsed value with
no clamping; both then assign `fraction × duration` to the element's current
time unconditionally — there is no guard making the seek a no-op when the
duration is 0 or NaN (a NaN duration yields a NaN target time). -/
theorem seek_spec_amended :
    (∀ x l w : ℚ, w ≠ 0 → ∃ q : ℚ,
      clickPos (JSNum.num x) (JSNum.num l) (JSNum.num w) = JSNum.num q ∧ 0 ≤ q ∧ q ≤ 1) ∧
    (∀ (s : CardState) (v : VideoElem) (x l w : JSNum), currentVideo s = some v →
      handleProgressClick x l w true s =
        setVideo s { v with currentTime := jsMul (clickPos x l w) v.duration }) ∧
    (∀ (t : TCardState) (v : VideoElem) (value : JSNum), t.video = some v →
      handleSeekT value t =
        { t with video := some { v with currentTime := jsMul value v.duration },
                 progress := value }) := by
  refine ⟨?_, ?_, ?_⟩
  · intro x l w hw
    refine ⟨max 0 (min 1 ((x - l) / w)), ?_, le_max_left 0 _, ?_⟩
    · simp [clickPos, jsSub, jsDiv, jsMin, jsMax, hw]
    · exact max_le (by norm_num) (min_le_left 1 _)
  · intro s v x l w hv
    simp [handleProgressClick, hv]
  · intro t v value hv
    simp [handleSeekT, hv]

/-- Witness for the amended C4 at a click at fraction 1/2 of a width-10 bar
and a range-input seek to 1. -/
theorem seek_spec_amended_witness :
    (∃ q : ℚ, clickPos (JSNum.num 5) (JSNum.num 0) (JSNum.num 10) = JSNum.num q ∧
      0 ≤ q ∧ q ≤ 1) ∧
    handleProgressClick (JSNum.num 5) (JSNum.num 0) (JSNum.num 10) true sClick =
      setVideo sClick
        { vElem with
          currentTime := jsMul (clickPos (JSNum.num 5) (JSNum.num 0) (JSNum.num 10)) vElem.duration } ∧
    handleSeekT (JSNum.num 1) tSeek =
      { tSeek with video := some { vElem with currentTime := jsMul (JSNum.num 1) vElem.duration },
                   progress := JSNum.num 1 } :=
  ⟨seek_spec_amended.1 5 0 10 (by norm_num),
   seek_spec_amended.2.1 sClick vElem (JSNum.num 5) (JSNum.num 0) (JSNum.num 10) rfl,
   seek_spec_amended.2.2 tSeek vElem (JSNum.num 1) rfl⟩

/-! ### Error state and control inertness -/

/-- C5 counterexample: after the media error event fires on a card whose
desktop and mobile elements are both mounted, the re-render replaces the
desktop video with the error affordance, but the mobile video (rendered
without any `hasError` check) remains attached — so `toggleMute` falls back
to it and flips the card's `isMuted` state from `false` to `true`, an
observable effect of a control the claim says is inert. -/
theorem errored_card_counterexample :
    (renderSync (handleEvent MediaEvent.error sErr)).hasError = true ∧
    (renderSync (handleEvent MediaEvent.error sErr)).desktopVideo = none ∧
    sErr.isMuted = false ∧
    (toggleMute (renderSync (handleEvent MediaEvent.error sErr))).isMuted = true := by
  refine ⟨rfl, rfl, rfl, rfl⟩

/-- C5 (amended): a load error marks the card errored and the re-render
removes the desktop video, and sibling cards (each owning its own state
record) are untouched by another card's transition; but the card's controls
are not inert: they fall back to the still-mounted mobile element, so
`toggleMute` still flips the mute state. -/
theorem errored_card_amended :
    ∀ (s : CardState) (v : VideoElem) (cards : List CardState) (i j : ℕ)
      (f : CardState → CardState),
      (handleEvent MediaEvent.error s).hasError = true ∧
      (renderSync (handleEvent MediaEvent.error s)).desktopVideo = none ∧
      (s.mobileVideo = some v →
        (toggleMute (renderSync (handleEvent MediaEvent.error s))).isMuted = !v.muted) ∧
      (j ≠ i → (updateCard cards i f).get? j = cards.get? j) := by
  intro s v cards i j f
  refine ⟨rfl, ?_, ?_, ?_⟩
  · simp [renderSync, handleEvent]
  · intro hv
    simp [toggleMute, renderSync, handleEvent, currentVideo, setVideo, hv]
  · intro hne
    exact updateCard_get_ne cards i j f hne

/-- Witness for the amended C5: the two-element card `sErr` after an error,
and independence of the sibling at index 1 when card 0 errors. -/
theorem errored_card_amended_witness :
    (handleEvent MediaEvent.error sErr).hasError = true ∧
    (renderSync (handleEvent MediaEvent.error sErr)).desktopVideo = none ∧
    (toggleMute (renderSync (handleEvent MediaEvent.error sErr))).isMuted = !vMob.muted ∧
    (updateCard [sErr, sClick] 0 (handleEvent MediaEvent.error)).get? 1 =
      [sErr, sClick].get? 1 := by
  obtain ⟨h1, h2, h3, h4⟩ :=
    errored_card_amended sErr vMob [sErr, sClick] 0 1 (handleEvent MediaEvent.error)
  exact ⟨h1, h2, h3 rfl, h4 (by decide)⟩

/-! ### Play-command rejection -/

/-- C6 counterexample: `togglePlay` of `motion-reel-section.tsx`, invoked on a
card whose element is paused, issues the play command with no rejection
handler attached (`videoRef.current.play()` with no `.catch`), so an autoplay
rejection is neither caught, logged nor discarded by this code. -/
theorem toggleplay_uncaught_counterexample :
    togglePlayT tSeek = (tSeek, MediaCmd.play false) := rfl

/-- C6 (amended): in the part_000 controller `togglePlay` attaches
`.catch(console.error)` to every play command it issues, and in both variants
`togglePlay` leaves the React state untouched, so state consistency is left
to the native play/pause events; but the tsx variant issues `play()` with no
rejection handler. -/
theorem toggleplay_rejection_amended :
    ∀ (s : CardState) (t : TCardState),
      (togglePlay s).1 = s ∧
      ((togglePlay s).2 = MediaCmd.none ∨ (togglePlay s).2 = MediaCmd.play true ∨
        (togglePlay s).2 = MediaCmd.pause) ∧
      (togglePlayT t).1 = t := by
  intro s t
  refine ⟨?_, ?_, ?_⟩
  · cases hv : currentVideo s with
    | none => simp [togglePlay, hv]
    | some v => cases hp : v.paused <;> simp [togglePlay, hv, hp]
  · cases hv : currentVideo s with
    | none => simp [togglePlay, hv]
    | some v => cases hp : v.paused <;> simp [togglePlay, hv, hp]
  · cases hv : t.video with
    | none => simp [togglePlayT, hv]
    | some v => cases hp : v.paused <;> simp [togglePlayT, hv, hp]

/-! ### Event-driven state -/

/-- C7: the playing, duration and current-time state fields are never mutated
by the commands (`togglePlay`, `toggleMute`, the seek handlers) — in
particular `togglePlay` on a paused element leaves the playing flag
untouched — and become `true`/updated exactly through the registered native
event handlers (`play`, `pause`, `timeupdate`, `loadedmetadata`). -/
theorem state_event_driven :
    ∀ (s : CardState) (t : TCardState) (x l w value : JSNum) (p : Bool),
      (togglePlay s).1 = s ∧
      (toggleMute s).isPlaying = s.isPlaying ∧
      (toggleMute s).duration = s.duration ∧
      (toggleMute s).currentTime = s.currentTime ∧
      (handleProgressClick x l w p s).isPlaying = s.isPlaying ∧
      (handleProgressClick x l w p s).duration = s.duration ∧
      (handleProgressClick x l w p s).currentTime = s.currentTime ∧
      (handleEvent MediaEvent.play s).isPlaying = true ∧
      (handleEvent MediaEvent.pause s).isPlaying = false ∧
      (togglePlayT t).1 = t ∧
      (toggleMuteT t).playing = t.playing ∧
      (handleSeekT value t).playing = t.playing ∧
      (handleEventT TEvent.play t).playing = true ∧
      (handleEventT TEvent.pause t).playing = false := by
  intro s t x l w value p
  refine ⟨?_, ?_, ?_, ?_, ?_, ?_, ?_, rfl, rfl, ?_, ?_, ?_, rfl, rfl⟩
  · cases hv : currentVideo s with
    | none => simp [togglePlay, hv]
    | some v => cases hp : v.paused <;> simp [togglePlay, hv, hp]
  · cases hv : currentVideo s with
    | none => simp [toggleMute, hv]
    | some v => simp [toggleMute, hv, setVideo_isPlaying]
  · cases hv : currentVideo s with
    | none => simp [toggleMute, hv]
    | some v => simp [toggleMute, hv, setVideo_duration]
  · cases hv : currentVideo s with
    | none => simp [toggleMute, hv]
    | some v => simp [toggleMute, hv, setVideo_currentTime]
  · cases hv : currentVideo s <;> cases p <;>
      simp [handleProgressClick, hv, setVideo_isPlaying]
  · cases hv : currentVideo s <;> cases p <;>
      simp [handleProgressClick, hv, setVideo_duration]
  · cases hv : currentVideo s <;> cases p <;>
      simp [handleProgressClick, hv, setVideo_currentTime]
  · cases hv : t.video with
    | none => simp [togglePlayT, hv]
    | some v => cases hp : v.paused <;> simp [togglePlayT, hv, hp]
  · cases hv : t.video with
    | none => simp [toggleMuteT, hv]
    | some v => simp [toggleMuteT, hv]
  · cases hv : t.video with
    | none => simp [handleSeekT, hv]
    | some v => simp [handleSeekT, hv]

/-! ### Optimistic progress update on seek -/

/-- C9 counterexample: in part_000 a click at the midpoint of a width-10
progress bar requests fraction 1/2, but `handleProgressClick` leaves the
displayed progress state at its pre-seek value 0 — it performs no optimistic
update, so the bar keeps the stale value until the next timeupdate event. -/
theorem seek_no_optimistic_update_counterexample :
    clickPos (JSNum.num 5) (JSNum.num 0) (JSNum.num 10) = JSNum.num (1 / 2) ∧
    (handleProgressClick (JSNum.num 5) (JSNum.num 0) (JSNum.num 10) true sClick).progress =
      JSNum.num 0 ∧
    ¬((1 : ℚ) / 2 = 0) := by
  refine ⟨?_, ?_, by norm_num⟩
  · have h1 : jsSub (JSNum.num 5) (JSNum.num 0) = JSNum.num 5 := by norm_num [jsSub]
    have h2 : jsDiv (JSNum.num 5) (JSNum.num 10) = JSNum.num (1 / 2) := by norm_num [jsDiv]
    have h3 : jsMin (JSNum.num 1) (JSNum.num (1 / 2)) = JSNum.num (1 / 2) := by
      simp only [jsMin]
      rw [min_eq_right (by norm_num : (1 : ℚ) / 2 ≤ 1)]
    have h4 : jsMax (JSNum.num 0) (JSNum.num (1 / 2)) = JSNum.num (1 / 2) := by
      simp only [jsMax]
      rw [max_eq_right (by norm_num : (0 : ℚ) ≤ 1 / 2)]
    unfold clickPos
    rw [h1, h2, h3, h4]
  · simp [handleProgressClick, sClick, currentVideo, setVideo]

/-- C9 (amended): the tsx `handleSeek` does update the displayed progress to
the requested value synchronously, but the part_000 `handleProgressClick`
never touches the progress state: the displayed fraction is updated only by
the timeupdate handler. -/
theorem seek_progress_amended :
    ∀ (value : JSNum) (t : TCardState) (v : VideoElem) (x l w : JSNum) (p : Bool)
      (s : CardState),
      (t.video = some v → (handleSeekT value t).progress = value) ∧
      (handleProgressClick x l w p s).progress = s.progress := by
  intro value t v x l w p s
  constructor
  · intro hv
    simp [handleSeekT, hv]
  · cases hv : currentVideo s <;> cases p <;>
      simp [handleProgressClick, hv, setVideo_progress]

/-- Witness for the amended C9: a range-input seek to 1 on `tSeek` and a
pointer seek on `sClick`. -/
theorem seek_progress_amended_witness :
    (handleSeekT (JSNum.num 1) tSeek).progress = JSNum.num 1 ∧
    (handleProgressClick (JSNum.num 5) (JSNum.num 0) (JSNum.num 10) true sClick).progress =
      sClick.progress :=
  ⟨(seek_progress_amended (JSNum.num 1) tSeek vElem (JSNum.num 5) (JSNum.num 0)
      (JSNum.num 10) true sClick).1 rfl,
   (seek_progress_amended (JSNum.num 1) tSeek vElem (JSNum.num 5) (JSNum.num 0)
      (JSNum.num 10) true sClick).2⟩

/-! ### Commands without an attached element -/

/-- C10: when no media element is attached (all refs null), every transport
command — `togglePlay`, `toggleMute` and the seek handlers of both variants —
returns without mutating any state field or element property and issues no
media command. -/
theorem commands_noop_without_element :
    ∀ (s : CardState) (t : TCardState) (x l w value : JSNum) (p : Bool),
      currentVideo s = none → t.video = none →
      togglePlay s = (s, MediaCmd.none) ∧
      toggleMute s = s ∧
      handleProgressClick x l w p s = s ∧
      togglePlayT t = (t, MediaCmd.none) ∧
      toggleMuteT t = t ∧
      handleSeekT value t = t ∧
      handleProgressT t = t := by
  intro s t x l w value p hs ht
  refine ⟨?_, ?_, ?_, ?_, ?_, ?_, ?_⟩
  · simp [togglePlay, hs]
  · simp [toggleMute, hs]
  · cases p <;> simp [handleProgressClick, hs]
  · simp [togglePlayT, ht]
  · simp [toggleMuteT, ht]
  · simp [handleSeekT, ht]
  · simp [handleProgressT, ht]

/-- Witness for C10 at concrete cards with no element attached. -/
theorem commands_noop_without_element_witness :
    togglePlay sEmpty = (sEmpty, MediaCmd.none) ∧
    toggleMute sEmpty = sEmpty ∧
    handleProgressClick (JSNum.num 0) (JSNum.num 0) (JSNum.num 1) true sEmpty = sEmpty ∧
    togglePlayT tEmpty = (tEmpty, MediaCmd.none) ∧
    toggleMuteT tEmpty = tEmpty ∧
    handleSeekT (JSNum.num 1) tEmpty = tEmpty ∧
    handleProgressT tEmpty = tEmpty :=
  commands_noop_without_element sEmpty tEmpty (JSNum.num 0) (JSNum.num 0) (JSNum.num 1)
    (JSNum.num 1) true rfl rfl

/-! ### Input normalization -/

/-- C8: normalization maps `null` to the empty list (and the section renders
the empty-state message), a single item to exactly one rendered card, and a
list of N items to exactly N cards in the same order — the rendered card list
is the input list itself, so nothing is dropped or duplicated. -/
theorem normalize_render_correct :
    ∀ (r : Reel) (rs : List Reel),
      normalizeData ReelData.null = [] ∧
      renderSection ReelData.null = SectionView.emptyMessage ∧
      renderSection (ReelData.single r) = SectionView.cards [r] ∧
      normalizeData (ReelData.arr rs) = rs ∧
      (rs ≠ [] → renderSection (ReelData.arr rs) = SectionView.cards rs) := by
  intro r rs
  refine ⟨rfl, rfl, rfl, rfl, ?_⟩
  intro h
  simp [renderSection, normalizeData, List.length_eq_zero, h]

/-- Witness for C8 on a concrete two-item list. -/
theorem normalize_render_correct_witness :
    renderSection (ReelData.arr [rA, rB]) = SectionView.cards [rA, rB] :=
  (normalize_render_correct rA [rA, rB]).2.2.2.2 (by simp)
